import Mathlib

/-!
Verification development of the ping-pong MQTT command/response system
(src/app-ping.py, src/app-pong.py, src/app-pingpong.py).

We shallowly embed the responder logic of the two responder entry points
(the `DeviceSimulator` handlers plus the dispatch loop in app-pong.py, and
the `process_command` function of app-pingpong.py), the delivery callbacks,
and the temperature streaming loop of app-ping.py, and prove the spec's
testable properties about them.

Modelling conventions:
- JSON values are `Value` (int, number, string, bool, mapping, null);
  Python/JSON numbers are modelled by rationals.
- A parsed payload mapping is an association list `List (String × Value)`;
  `mget` is `dict.get` returning `Option Value`.
- `random.uniform` draws are inputs: each handler invocation receives a
  `Draws` record whose components stand for the successive draws, in the
  order the source performs them.
- Python exceptions (only `int(...)` in `process_command` can raise inside
  a handler) are modelled by `Option`: `none` is an uncaught exception.
-/

/-- A JSON-ish runtime value, as produced by `json.loads`. -/
inductive Value where
  | vInt  : Int → Value
  | vNum  : ℚ → Value
  | vStr  : String → Value
  | vBool : Bool → Value
  | vMap  : List (String × Value) → Value
  | vNull : Value

/-- `dict.get(k)`: first binding of `k` in the association list, if any. -/
def mget (m : List (String × Value)) (k : String) : Option Value :=
  match m with
  | [] => none
  | (k', v) :: rest => if k' = k then some v else mget rest k

/-- Truncation toward zero, the rounding of Python's `int()` on a float. -/
def ratTrunc (q : ℚ) : Int := if 0 ≤ q then ⌊q⌋ else ⌈q⌉

/-- Python's `int(x)` conversion: succeeds on ints, floats (truncates),
bools, and integer-literal strings; raises (`none`) otherwise. -/
def pyInt : Value → Option Int
  | .vInt n  => some n
  | .vNum q  => some (ratTrunc q)
  | .vBool b => some (cond b 1 0)
  | .vStr s  => s.toInt?
  | _        => none

/-- A parsed command payload. `type` and `session_id` are what
`command.get("type")` / `command.get("session_id")` return (`none` when the
key is missing); `data` is `command.get("data", {})`. -/
structure Command where
  type : Option String
  data : List (String × Value)
  session_id : Option String
  timestamp : ℚ

/-- A response payload, as both responders construct it. -/
structure Response where
  type : Option String
  data : List (String × Value)
  timestamp : ℚ
  session_id : Option String

/-- The pseudo-random draws consumed by one handler invocation, in source
order: RGB uses `d1` (power_consumption); Temperature uses `d1` (delta),
`d2` (humidity), `d3` (pressure); Weight uses `d1` (calibrated_weight) and
`d2` (stability). -/
structure Draws where
  d1 : ℚ
  d2 : ℚ
  d3 : ℚ

/-- The response topic `f"pong/{session_id}/response"`; a missing session
id is formatted as Python formats `None`. -/
def respTopic (sid : Option String) : String :=
  "pong/" ++ (match sid with | some s => s | none => "None") ++ "/response"

/-- The three-key rgb mapping `{"r": r, "g": g, "b": b}`. -/
def rgbMap (r g b : Int) : List (String × Value) :=
  [("r", .vInt r), ("g", .vInt g), ("b", .vInt b)]

/-! ### app-pingpong.py responder -/

/-- The global `device_state` record of app-pingpong.py. -/
structure DeviceState where
  rgb : List (String × Value)
  temperature : ℚ
  rpm : Value

/-- The initial value of the global `device_state` in app-pingpong.py. -/
def device_state : DeviceState :=
  { rgb := rgbMap 0 0 0, temperature := 25, rpm := .vInt 0 }

/-- The if/elif dispatch inside `process_command` of app-pingpong.py:
yields the mutated device state and `response_data`. `none` models the
uncaught exception raised by `int(...)` on a non-numeric rgb entry. -/
def process_dispatch (cmd : Command) (dr : Draws) (st : DeviceState) :
    Option (DeviceState × List (String × Value)) :=
  let data := cmd.data
  if cmd.type = some "RGB Command" then
    match pyInt ((mget data "r").getD (.vInt 0)),
          pyInt ((mget data "g").getD (.vInt 0)),
          pyInt ((mget data "b").getD (.vInt 0)) with
    | some r, some g, some b =>
      let st' := { st with rgb := rgbMap r g b }
      some (st',
        [("current_state", .vStr "applied"),
         ("power_consumption", .vNum dr.d1),
         ("applied_values", .vMap st'.rgb)])
    | _, _, _ => none
  else if cmd.type = some "Temperature Reading" then
    let st' := { st with temperature := st.temperature + dr.d1 }
    some (st',
      [("current_temperature", .vNum st'.temperature),
       ("humidity", .vNum dr.d2),
       ("pressure", .vNum dr.d3)])
  else if cmd.type = some "Weight Data" then
    let st' :=
      match mget data "set_rpm" with
      | some v => { st with rpm := v }
      | none => st
    some (st',
      [("calibrated_weight", .vNum dr.d1),
       ("current_rpm", st'.rpm),
       ("stability", .vNum dr.d2)])
  else
    some (st, [("error", .vStr "Unknown command type")])

/-- `process_command` of app-pingpong.py: dispatch, then build the
response record and the topic `f"pong/{session_id}/response"` it is
published on. -/
def process_command (cmd : Command) (dr : Draws) (now : ℚ) (st : DeviceState) :
    Option (DeviceState × Response × String) :=
  (process_dispatch cmd dr st).map (fun p =>
    (p.1,
     { type := cmd.type, data := p.2, timestamp := now,
       session_id := cmd.session_id : Response },
     respTopic cmd.session_id))

/-- Running app-pingpong's responder over a sequence of commands (each with
its draws and wall-clock time), collecting the intermediate states and the
responses: models `check_pong_commands` draining the command queue. -/
def run_trace (steps : List (Command × Draws × ℚ)) (st : DeviceState) :
    Option (List (DeviceState × Response)) :=
  match steps with
  | [] => some []
  | (c, dr, now) :: rest =>
    match process_command c dr now st with
    | none => none
    | some (st', r, _) => (run_trace rest st').map (fun t => (st', r) :: t)

/-- The final device state after a sequence of commands. -/
def runDS (steps : List (Command × Draws × ℚ)) (st : DeviceState) :
    Option DeviceState :=
  match steps with
  | [] => some st
  | (c, dr, now) :: rest =>
    match process_command c dr now st with
    | none => none
    | some (st', _, _) => runDS rest st'

/-! ### app-pong.py responder -/

/-- The mutable fields of `DeviceSimulator` in app-pong.py. -/
structure DeviceSimulator where
  current_rgb : List (String × Value)
  current_rpm : Value
  current_temperature : ℚ

namespace DeviceSimulator

/-- `DeviceSimulator.__init__`. -/
def init : DeviceSimulator :=
  { current_rgb := rgbMap 0 0 0, current_rpm := .vInt 0,
    current_temperature := 25 }

/-- `DeviceSimulator.process_rgb_command`: stores the raw data mapping as
the current rgb and echoes it. -/
def process_rgb_command (sim : DeviceSimulator) (data : List (String × Value))
    (dr : Draws) : DeviceSimulator × List (String × Value) :=
  let sim' := { sim with current_rgb := data }
  (sim',
   [("current_state", .vStr "applied"),
    ("power_consumption", .vNum dr.d1),
    ("applied_values", .vMap sim'.current_rgb)])

/-- `DeviceSimulator.process_temperature_reading`. -/
def process_temperature_reading (sim : DeviceSimulator)
    (dr : Draws) : DeviceSimulator × List (String × Value) :=
  let sim' := { sim with current_temperature := sim.current_temperature + dr.d1 }
  (sim',
   [("current_temperature", .vNum sim'.current_temperature),
    ("humidity", .vNum dr.d2),
    ("pressure", .vNum dr.d3)])

/-- `DeviceSimulator.process_weight_data`. -/
def process_weight_data (sim : DeviceSimulator) (data : List (String × Value))
    (dr : Draws) : DeviceSimulator × List (String × Value) :=
  let sim' :=
    match mget data "set_rpm" with
    | some v => { sim with current_rpm := v }
    | none => sim
  (sim',
   [("calibrated_weight", .vNum dr.d1),
    ("current_rpm", sim'.current_rpm),
    ("stability", .vNum dr.d2)])

end DeviceSimulator

/-- The if/elif dispatch of the command-handling loop in app-pong.py's
`main`: the simulator after the handler ran, and `response_data`. Total:
no handler in app-pong.py can raise on a mapping `data`. -/
def pong_dispatch (cmd : Command) (dr : Draws) (sim : DeviceSimulator) :
    DeviceSimulator × List (String × Value) :=
  if cmd.type = some "RGB Command" then
    sim.process_rgb_command cmd.data dr
  else if cmd.type = some "Temperature Reading" then
    sim.process_temperature_reading dr
  else if cmd.type = some "Weight Data" then
    sim.process_weight_data cmd.data dr
  else
    (sim, [("error", .vStr "Unknown command type")])

/-- One iteration of the command-handling loop in app-pong.py's `main`:
dispatch on `command.get("type")`, build the response record, and publish
it on `f"pong/{session_id}/response"`. -/
def pong_main_step (cmd : Command) (dr : Draws) (now : ℚ)
    (sim : DeviceSimulator) : DeviceSimulator × Response × String :=
  let p := pong_dispatch cmd dr sim
  (p.1,
   { type := cmd.type, data := p.2, timestamp := now,
     session_id := cmd.session_id : Response },
   respTopic cmd.session_id)

/-- The correspondence between the two responders' state records: the
fields of app-pong's `DeviceSimulator` read as app-pingpong's
`device_state` record. -/
def DeviceSimulator.toDevice (sim : DeviceSimulator) : DeviceState :=
  { rgb := sim.current_rgb, temperature := sim.current_temperature,
    rpm := sim.current_rpm }

/-! ### Delivery callbacks (`_on_message` / `on_pong_message`) -/

/-- The outcome of `json.loads` on one inbound MQTT payload: a parsed
command record, or a parse failure (the exception the callback catches
and logs). -/
inductive RawMsg where
  | ok : Command → RawMsg
  | bad : RawMsg

/-- The delivery callback (`_on_message` in app-ping.py and app-pong.py,
`on_pong_message` / `on_ping_message` in app-pingpong.py): a well-formed
payload is appended to the inbound queue; a parse failure leaves the queue
untouched (the exception is caught, logged, and swallowed). -/
def on_message (q : List Command) (m : RawMsg) : List Command :=
  match m with
  | .ok c => q ++ [c]
  | .bad => q

/-- Delivery of a whole inbound message sequence. -/
def deliver (q : List Command) (ms : List RawMsg) : List Command :=
  ms.foldl on_message q

/-! ### Temperature streaming loop (app-ping.py) -/

/-- Position of the streaming thread spawned by
`start_temperature_streaming`: about to test the `while` condition, about
to publish inside the loop body, or exited. -/
inductive StreamPC where
  | atCheck
  | atBody
  | exited
deriving DecidableEq

/-- Interleaved state of the streaming machinery: the `self.streaming` and
`self.connected` flags plus the thread's position. -/
structure StreamState where
  streaming : Bool
  connected : Bool
  pc : StreamPC
deriving DecidableEq

/-- Observable events of the streaming machinery. `checkLoop` is the
thread evaluating `self.streaming and self.connected`; `publishCmd` is the
thread publishing one Temperature Reading command (then sleeping);
`stopSignal` is `stop_temperature_streaming` writing `self.streaming =
False`; `joinRet` is its `self.streaming_thread.join()` returning, which
requires the thread to have exited; `dropConn` is a broker disconnect
clearing `self.connected`. -/
inductive SEv where
  | checkLoop
  | publishCmd
  | stopSignal
  | joinRet
  | dropConn
deriving DecidableEq

/-- One interleaving step; `none` when the event is not enabled. -/
def sstep (s : StreamState) : SEv → Option StreamState
  | .checkLoop =>
    if s.pc = .atCheck then
      some { s with pc := if s.streaming && s.connected then .atBody else .exited }
    else none
  | .publishCmd =>
    if s.pc = .atBody then some { s with pc := .atCheck } else none
  | .stopSignal => some { s with streaming := false }
  | .joinRet => if s.pc = .exited then some s else none
  | .dropConn => some { s with connected := false }

/-- Running a sequence of interleaving events. -/
def runS (s : StreamState) : List SEv → Option StreamState
  | [] => some s
  | e :: es => match sstep s e with
    | none => none
    | some s' => runS s' es

/-- The streaming thread's state right after `start_temperature_streaming`
set the flag and spawned it, while connected. -/
def streamStart : StreamState :=
  { streaming := true, connected := true, pc := .atCheck }

/-! ### Concrete fixtures -/

/-- The RGB command `send_rgb` publishes. -/
def cmdRGB (r g b : Int) : Command :=
  { type := some "RGB Command", data := rgbMap r g b,
    session_id := some "s1", timestamp := 0 }

/-- A Temperature Reading command. -/
def cmdTemp : Command :=
  { type := some "Temperature Reading", data := [],
    session_id := some "s1", timestamp := 0 }

/-- The Weight Data command `send_weight_request` publishes. -/
def cmdWeight (v : Value) : Command :=
  { type := some "Weight Data",
    data := [("set_rpm", v), ("request_weight", .vBool true)],
    session_id := some "s1", timestamp := 0 }

/-- A Weight Data command with no set_rpm entry. -/
def cmdWeightNoRpm : Command :=
  { type := some "Weight Data", data := [("request_weight", .vBool true)],
    session_id := some "s1", timestamp := 0 }

/-- A command of unknown type. -/
def cmdFoo : Command :=
  { type := some "Foo", data := [], session_id := some "s1", timestamp := 0 }

/-- An RGB command whose data mapping is empty. -/
def cmdRGBempty : Command :=
  { type := some "RGB Command", data := [], session_id := some "s1",
    timestamp := 0 }

/-- A fixed draw triple. -/
def dr0 : Draws := ⟨0, 0, 0⟩

/-! ### Branch lemmas -/

theorem process_dispatch_unknown {cmd : Command} (dr : Draws) (st : DeviceState)
    (h1 : cmd.type ≠ some "RGB Command")
    (h2 : cmd.type ≠ some "Temperature Reading")
    (h3 : cmd.type ≠ some "Weight Data") :
    process_dispatch cmd dr st =
      some (st, [("error", .vStr "Unknown command type")]) := by
  simp [process_dispatch, h1, h2, h3]

theorem pong_dispatch_unknown {cmd : Command} (dr : Draws) (sim : DeviceSimulator)
    (h1 : cmd.type ≠ some "RGB Command")
    (h2 : cmd.type ≠ some "Temperature Reading")
    (h3 : cmd.type ≠ some "Weight Data") :
    pong_dispatch cmd dr sim = (sim, [("error", .vStr "Unknown command type")]) := by
  simp [pong_dispatch, h1, h2, h3]

theorem process_dispatch_temp {cmd : Command} (dr : Draws) (st : DeviceState)
    (h : cmd.type = some "Temperature Reading") :
    process_dispatch cmd dr st =
      some ({ st with temperature := st.temperature + dr.d1 },
        [("current_temperature", .vNum (st.temperature + dr.d1)),
         ("humidity", .vNum dr.d2),
         ("pressure", .vNum dr.d3)]) := by
  simp [process_dispatch, h]

theorem pong_dispatch_temp {cmd : Command} (dr : Draws) (sim : DeviceSimulator)
    (h : cmd.type = some "Temperature Reading") :
    pong_dispatch cmd dr sim =
      ({ sim with current_temperature := sim.current_temperature + dr.d1 },
        [("current_temperature", .vNum (sim.current_temperature + dr.d1)),
         ("humidity", .vNum dr.d2),
         ("pressure", .vNum dr.d3)]) := by
  simp [pong_dispatch, DeviceSimulator.process_temperature_reading, h]

theorem process_dispatch_weight_set {cmd : Command} (dr : Draws)
    (st : DeviceState) {v : Value} (h : cmd.type = some "Weight Data")
    (hv : mget cmd.data "set_rpm" = some v) :
    process_dispatch cmd dr st =
      some ({ st with rpm := v },
        [("calibrated_weight", .vNum dr.d1),
         ("current_rpm", v),
         ("stability", .vNum dr.d2)]) := by
  simp [process_dispatch, h, hv]

theorem process_dispatch_weight_norpm {cmd : Command} (dr : Draws)
    (st : DeviceState) (h : cmd.type = some "Weight Data")
    (hv : mget cmd.data "set_rpm" = none) :
    process_dispatch cmd dr st =
      some (st,
        [("calibrated_weight", .vNum dr.d1),
         ("current_rpm", st.rpm),
         ("stability", .vNum dr.d2)]) := by
  simp [process_dispatch, h, hv]

theorem pong_dispatch_weight_set {cmd : Command} (dr : Draws)
    (sim : DeviceSimulator) {v : Value} (h : cmd.type = some "Weight Data")
    (hv : mget cmd.data "set_rpm" = some v) :
    pong_dispatch cmd dr sim =
      ({ sim with current_rpm := v },
        [("calibrated_weight", .vNum dr.d1),
         ("current_rpm", v),
         ("stability", .vNum dr.d2)]) := by
  simp [pong_dispatch, DeviceSimulator.process_weight_data, h, hv]

theorem pong_dispatch_weight_norpm {cmd : Command} (dr : Draws)
    (sim : DeviceSimulator) (h : cmd.type = some "Weight Data")
    (hv : mget cmd.data "set_rpm" = none) :
    pong_dispatch cmd dr sim =
      (sim,
        [("calibrated_weight", .vNum dr.d1),
         ("current_rpm", sim.current_rpm),
         ("stability", .vNum dr.d2)]) := by
  simp [pong_dispatch, DeviceSimulator.process_weight_data, h, hv]

theorem process_dispatch_rgb_ints {cmd : Command} (dr : Draws) (st : DeviceState)
    (r g b : Int) (htype : cmd.type = some "RGB Command")
    (hdata : cmd.data = rgbMap r g b) :
    process_dispatch cmd dr st =
      some ({ st with rgb := rgbMap r g b },
        [("current_state", .vStr "applied"),
         ("power_consumption", .vNum dr.d1),
         ("applied_values", .vMap (rgbMap r g b))]) := by
  simp [process_dispatch, htype, hdata, rgbMap, mget, pyInt]

theorem pong_dispatch_rgb {cmd : Command} (dr : Draws) (sim : DeviceSimulator)
    (htype : cmd.type = some "RGB Command") :
    pong_dispatch cmd dr sim =
      ({ sim with current_rgb := cmd.data },
        [("current_state", .vStr "applied"),
         ("power_consumption", .vNum dr.d1),
         ("applied_values", .vMap cmd.data)]) := by
  simp [pong_dispatch, DeviceSimulator.process_rgb_command, htype]

/-- The response app-pong.py and app-pingpong.py produce for a command of
unknown type, session "s1", at wall-clock time 0. -/
def respFooEx : Response :=
  { type := some "Foo", data := [("error", .vStr "Unknown command type")],
    timestamp := 0, session_id := some "s1" }

/-! ### Claims -/

/-- C1: for every command processed by a responder (app-pingpong.py's
`process_command` and app-pong.py's `main` loop alike), the Response it
constructs echoes the command's `type` and `session_id` fields, missing
fields included: the response record copies `command.get("type")` and
`command.get("session_id")` unconditionally, in every dispatch branch. -/
theorem C1_response_echoes_type_and_session
    (cmd : Command) (dr : Draws) (now : ℚ) (st : DeviceState)
    (sim : DeviceSimulator) (st' : DeviceState) (r : Response) (t : String)
    (h : process_command cmd dr now st = some (st', r, t)) :
    (r.type = cmd.type ∧ r.session_id = cmd.session_id) ∧
    ((pong_main_step cmd dr now sim).2.1.type = cmd.type ∧
     (pong_main_step cmd dr now sim).2.1.session_id = cmd.session_id) := by
  refine ⟨?_, rfl, rfl⟩
  simp only [process_command, Option.map_eq_some'] at h
  obtain ⟨p, -, heq⟩ := h
  injection heq with h1 h23
  injection h23 with h2 h3
  subst h2
  exact ⟨rfl, rfl⟩

/-- Witness for C1 at a concrete unknown-type command. -/
theorem C1_response_echoes_type_and_session_witness :
    (respFooEx.type = cmdFoo.type ∧ respFooEx.session_id = cmdFoo.session_id) ∧
    ((pong_main_step cmdFoo dr0 0 DeviceSimulator.init).2.1.type = cmdFoo.type ∧
     (pong_main_step cmdFoo dr0 0 DeviceSimulator.init).2.1.session_id =
       cmdFoo.session_id) :=
  C1_response_echoes_type_and_session cmdFoo dr0 0 device_state
    DeviceSimulator.init device_state respFooEx (respTopic (some "s1")) rfl

/-- C3: a command whose type is none of the three known types is not
dropped: both responders return the state unchanged and produce (and
publish, on the session's response topic) a Response whose data is exactly
the one-entry mapping with key "error" and value "Unknown command type",
with `type` and `session_id` echoed from the command. -/
theorem C3_unknown_type_error_response
    (cmd : Command) (dr : Draws) (now : ℚ) (st : DeviceState)
    (sim : DeviceSimulator)
    (h1 : cmd.type ≠ some "RGB Command")
    (h2 : cmd.type ≠ some "Temperature Reading")
    (h3 : cmd.type ≠ some "Weight Data") :
    process_command cmd dr now st =
      some (st,
        { type := cmd.type, data := [("error", .vStr "Unknown command type")],
          timestamp := now, session_id := cmd.session_id },
        respTopic cmd.session_id) ∧
    pong_main_step cmd dr now sim =
      (sim,
       { type := cmd.type, data := [("error", .vStr "Unknown command type")],
         timestamp := now, session_id := cmd.session_id },
       respTopic cmd.session_id) := by
  constructor
  · simp [process_command, process_dispatch_unknown dr st h1 h2 h3]
  · simp [pong_main_step, pong_dispatch_unknown dr sim h1 h2 h3]

/-- Witness for C3 at the command type "Foo". -/
theorem C3_unknown_type_error_response_witness :
    process_command cmdFoo dr0 0 device_state =
      some (device_state, respFooEx, "pong/s1/response") ∧
    pong_main_step cmdFoo dr0 0 DeviceSimulator.init =
      (DeviceSimulator.init, respFooEx, "pong/s1/response") := by
  have h := C3_unknown_type_error_response cmdFoo dr0 0 device_state
    DeviceSimulator.init (by decide) (by decide) (by decide)
  exact ⟨h.1, h.2⟩

/-- C9: a payload that fails to parse is discarded by the delivery
callback without raising (the callback is total on parse outcomes): the
inbound buffer is unchanged by that message, and delivering a message
sequence with the malformed message removed yields exactly the same
buffer, so well-formed messages before and after it are unaffected. -/
theorem C9_parse_failure_per_message_isolation
    (q : List Command) (l1 l2 : List RawMsg) :
    on_message q .bad = q ∧
    deliver q (l1 ++ RawMsg.bad :: l2) = deliver q (l1 ++ l2) := by
  refine ⟨rfl, ?_⟩
  simp [deliver, List.foldl_append, List.foldl_cons, on_message]

/-- C2: an RGB command whose data is the integer mapping {r, g, b} with
each component in [0, 255] makes both responders echo exactly that mapping
as `applied_values` and store it as the device's rgb (no clamping is
involved, so the range hypotheses are not even needed). -/
theorem C2_rgb_echo_law
    (r g b : Int) (cmd : Command) (dr : Draws) (now : ℚ)
    (st : DeviceState) (sim : DeviceSimulator)
    (htype : cmd.type = some "RGB Command")
    (hdata : cmd.data = rgbMap r g b)
    (hr : 0 ≤ r ∧ r ≤ 255) (hg : 0 ≤ g ∧ g ≤ 255) (hb : 0 ≤ b ∧ b ≤ 255) :
    (process_command cmd dr now st).map
        (fun p => (p.1.rgb, mget p.2.1.data "applied_values")) =
      some (rgbMap r g b, some (.vMap (rgbMap r g b))) ∧
    (pong_main_step cmd dr now sim).1.current_rgb = rgbMap r g b ∧
    mget (pong_main_step cmd dr now sim).2.1.data "applied_values" =
      some (.vMap (rgbMap r g b)) := by
  refine ⟨?_, ?_, ?_⟩
  · simp [process_command, process_dispatch_rgb_ints dr st r g b htype hdata, mget]
  · simp [pong_main_step, pong_dispatch_rgb dr sim htype, hdata]
  · simp [pong_main_step, pong_dispatch_rgb dr sim htype, hdata, mget]

/-- Witness for C2 at the end-to-end test values r=10, g=20, b=30. -/
theorem C2_rgb_echo_law_witness :
    (process_command (cmdRGB 10 20 30) dr0 0 device_state).map
        (fun p => (p.1.rgb, mget p.2.1.data "applied_values")) =
      some (rgbMap 10 20 30, some (.vMap (rgbMap 10 20 30))) ∧
    (pong_main_step (cmdRGB 10 20 30) dr0 0 DeviceSimulator.init).1.current_rgb =
      rgbMap 10 20 30 ∧
    mget (pong_main_step (cmdRGB 10 20 30) dr0 0 DeviceSimulator.init).2.1.data
        "applied_values" = some (.vMap (rgbMap 10 20 30)) :=
  C2_rgb_echo_law 10 20 30 (cmdRGB 10 20 30) dr0 0 device_state
    DeviceSimulator.init rfl rfl (by decide) (by decide) (by decide)

/-- C4: over a sequence of Weight Data commands carrying set_rpm values
v_1 ... v_n, after the i-th command the device rpm equals v_i and the i-th
response reports current_rpm = v_i (last write wins, no smoothing); a
Weight Data command without set_rpm leaves the rpm unchanged and reports
the pre-existing rpm. -/
theorem C4_weight_last_write_wins :
    (∀ (steps : List (Command × Draws × ℚ)) (vs : List Value) (st : DeviceState),
      List.Forall₂ (fun s v =>
          s.1.type = some "Weight Data" ∧ mget s.1.data "set_rpm" = some v)
        steps vs →
      (run_trace steps st).elim False (fun tr =>
        List.Forall₂ (fun p v =>
            p.1.rpm = v ∧ mget p.2.data "current_rpm" = some v) tr vs)) ∧
    (∀ (cmd : Command) (dr : Draws) (now : ℚ) (st : DeviceState),
      cmd.type = some "Weight Data" → mget cmd.data "set_rpm" = none →
      (process_command cmd dr now st).map
          (fun p => (p.1, mget p.2.1.data "current_rpm")) =
        some (st, some st.rpm)) := by
  constructor
  · intro steps vs st hf
    induction hf generalizing st with
    | nil => exact List.Forall₂.nil
    | @cons s v steps' vs' hsv hrest ih =>
      obtain ⟨c, dr, now⟩ := s
      obtain ⟨ht, hv⟩ := hsv
      have hpc : process_command c dr now st =
          some ({ st with rpm := v },
            { type := c.type,
              data := [("calibrated_weight", .vNum dr.d1),
                       ("current_rpm", v),
                       ("stability", .vNum dr.d2)],
              timestamp := now, session_id := c.session_id },
            respTopic c.session_id) := by
        simp [process_command, process_dispatch_weight_set dr st ht hv]
      have ihv := ih ({ st with rpm := v })
      rcases hrt : run_trace steps' ({ st with rpm := v }) with _ | tr
      · rw [hrt] at ihv
        simp at ihv
      · rw [hrt] at ihv
        simp only [Option.elim] at ihv
        simp only [run_trace, hpc, hrt, Option.map_some', Option.elim]
        exact List.Forall₂.cons ⟨rfl, by simp [mget]⟩ ihv
  · intro cmd dr now st h1 h2
    simp [process_command, process_dispatch_weight_norpm dr st h1 h2, mget]

/-- Witness for C4: a Weight Data command with no set_rpm entry, from the
initial device state. -/
theorem C4_weight_last_write_wins_witness :
    (process_command cmdWeightNoRpm dr0 0 device_state).map
        (fun p => (p.1, mget p.2.1.data "current_rpm")) =
      some (device_state, some device_state.rpm) :=
  C4_weight_last_write_wins.2 cmdWeightNoRpm dr0 0 device_state rfl rfl

/-- C5: after K consecutive Temperature Reading commands whose temperature
draws each lie in [-1/2, 1/2], the final temperature lies within
[T0 - K/2, T0 + K/2] of the starting temperature T0. -/
theorem C5_temperature_random_walk_bound
    (steps : List (Command × Draws × ℚ)) (st : DeviceState)
    (h : ∀ s ∈ steps, s.1.type = some "Temperature Reading" ∧
        -(1/2 : ℚ) ≤ s.2.1.d1 ∧ s.2.1.d1 ≤ 1/2) :
    (runDS steps st).elim False (fun st' =>
      st.temperature - steps.length / 2 ≤ st'.temperature ∧
      st'.temperature ≤ st.temperature + steps.length / 2) := by
  induction steps generalizing st with
  | nil => simp [runDS]
  | cons s rest ih =>
    obtain ⟨c, dr, now⟩ := s
    obtain ⟨ht, hlo, hhi⟩ := h _ (List.mem_cons_self _ _)
    have hpc : process_command c dr now st =
        some ({ st with temperature := st.temperature + dr.d1 },
          { type := c.type,
            data := [("current_temperature", .vNum (st.temperature + dr.d1)),
                     ("humidity", .vNum dr.d2),
                     ("pressure", .vNum dr.d3)],
            timestamp := now, session_id := c.session_id },
          respTopic c.session_id) := by
      simp [process_command, process_dispatch_temp dr st ht]
    have ih' := ih ({ st with temperature := st.temperature + dr.d1 })
      (fun s hs => h s (List.mem_cons_of_mem _ hs))
    simp only [runDS, hpc]
    rcases hrt : runDS rest ({ st with temperature := st.temperature + dr.d1 })
      with _ | st'
    · rw [hrt] at ih'
      simp at ih'
    · rw [hrt] at ih'
      simp only [Option.elim] at ih' ⊢
      obtain ⟨ih1, ih2⟩ := ih'
      push_cast [List.length_cons] at ih1 ih2 ⊢
      constructor <;> linarith

/-- Witness for C5: one Temperature Reading command with draw 1/4 moves
the temperature by at most 1/2. -/
theorem C5_temperature_random_walk_bound_witness :
    (runDS [(cmdTemp, ⟨1/4, 0, 0⟩, 0)] device_state).elim False (fun st' =>
      device_state.temperature -
          ([(cmdTemp, (⟨1/4, 0, 0⟩ : Draws), (0 : ℚ))].length : ℚ) / 2 ≤
        st'.temperature ∧
      st'.temperature ≤
        device_state.temperature +
          ([(cmdTemp, (⟨1/4, 0, 0⟩ : Draws), (0 : ℚ))].length : ℚ) / 2) := by
  have hyp : ∀ s ∈ [(cmdTemp, (⟨1/4, 0, 0⟩ : Draws), (0 : ℚ))],
      s.1.type = some "Temperature Reading" ∧
      -(1/2 : ℚ) ≤ s.2.1.d1 ∧ s.2.1.d1 ≤ 1/2 := by
    intro s hs
    rw [List.mem_singleton] at hs
    subst hs
    exact ⟨rfl, by norm_num, by norm_num⟩
  exact C5_temperature_random_walk_bound _ device_state hyp

/-- Any successful RGB dispatch of app-pingpong.py replaces `rgb` by a
three-entry int mapping that it also echoes, and builds exactly the
documented response data. -/
theorem process_dispatch_rgb_shape {cmd : Command} {dr : Draws}
    {st : DeviceState} {p : DeviceState × List (String × Value)}
    (htype : cmd.type = some "RGB Command")
    (hp : process_dispatch cmd dr st = some p) :
    ∃ r g b : Int,
      p = ({ st with rgb := rgbMap r g b },
        [("current_state", .vStr "applied"),
         ("power_consumption", .vNum dr.d1),
         ("applied_values", .vMap (rgbMap r g b))]) := by
  simp only [process_dispatch, htype] at hp
  rcases hr' : pyInt ((mget cmd.data "r").getD (.vInt 0)) with _ | rv <;>
    rcases hg' : pyInt ((mget cmd.data "g").getD (.vInt 0)) with _ | gv <;>
      rcases hb' : pyInt ((mget cmd.data "b").getD (.vInt 0)) with _ | bv <;>
        rw [hr', hg', hb'] at hp <;> simp at hp
  exact ⟨rv, gv, bv, hp.symm⟩

/-- C7: each handler mutates only the device-state field listed for it:
RGB changes only rgb, Temperature Reading changes only temperature,
Weight Data changes only rpm, and an unknown command type changes no
field at all — in app-pingpong.py's `process_command` and app-pong.py's
`DeviceSimulator` dispatch alike. -/
theorem C7_handler_frame
    (cmd : Command) (dr : Draws) (now : ℚ) (st : DeviceState)
    (sim : DeviceSimulator) (st' : DeviceState) (r : Response) (t : String)
    (h : process_command cmd dr now st = some (st', r, t)) :
    (cmd.type = some "RGB Command" →
        st'.temperature = st.temperature ∧ st'.rpm = st.rpm ∧
        (pong_dispatch cmd dr sim).1.current_temperature =
          sim.current_temperature ∧
        (pong_dispatch cmd dr sim).1.current_rpm = sim.current_rpm) ∧
    (cmd.type = some "Temperature Reading" →
        st'.rgb = st.rgb ∧ st'.rpm = st.rpm ∧
        (pong_dispatch cmd dr sim).1.current_rgb = sim.current_rgb ∧
        (pong_dispatch cmd dr sim).1.current_rpm = sim.current_rpm) ∧
    (cmd.type = some "Weight Data" →
        st'.rgb = st.rgb ∧ st'.temperature = st.temperature ∧
        (pong_dispatch cmd dr sim).1.current_rgb = sim.current_rgb ∧
        (pong_dispatch cmd dr sim).1.current_temperature =
          sim.current_temperature) ∧
    (cmd.type ≠ some "RGB Command" → cmd.type ≠ some "Temperature Reading" →
      cmd.type ≠ some "Weight Data" →
        st' = st ∧ (pong_dispatch cmd dr sim).1 = sim) := by
  simp only [process_command, Option.map_eq_some'] at h
  obtain ⟨p, hp, heq⟩ := h
  injection heq with h1 h23
  subst h1
  refine ⟨?_, ?_, ?_, ?_⟩
  · intro htype
    obtain ⟨rv, gv, bv, hpe⟩ := process_dispatch_rgb_shape htype hp
    subst hpe
    rw [pong_dispatch_rgb dr sim htype]
    exact ⟨rfl, rfl, rfl, rfl⟩
  · intro htype
    rw [process_dispatch_temp dr st htype] at hp
    injection hp with hp'
    subst hp'
    rw [pong_dispatch_temp dr sim htype]
    exact ⟨rfl, rfl, rfl, rfl⟩
  · intro htype
    rcases hrpm : mget cmd.data "set_rpm" with _ | v
    · rw [process_dispatch_weight_norpm dr st htype hrpm] at hp
      injection hp with hp'
      subst hp'
      rw [pong_dispatch_weight_norpm dr sim htype hrpm]
      exact ⟨rfl, rfl, rfl, rfl⟩
    · rw [process_dispatch_weight_set dr st htype hrpm] at hp
      injection hp with hp'
      subst hp'
      rw [pong_dispatch_weight_set dr sim htype hrpm]
      exact ⟨rfl, rfl, rfl, rfl⟩
  · intro h1' h2' h3'
    rw [process_dispatch_unknown dr st h1' h2' h3'] at hp
    injection hp with hp'
    subst hp'
    rw [pong_dispatch_unknown dr sim h1' h2' h3']
    exact ⟨rfl, rfl⟩

/-- Witness for C7 at a concrete unknown-type command: no device-state
field changes. -/
theorem C7_handler_frame_witness :
    (cmdFoo.type = some "RGB Command" →
        device_state.temperature = device_state.temperature ∧
        device_state.rpm = device_state.rpm ∧
        (pong_dispatch cmdFoo dr0 DeviceSimulator.init).1.current_temperature =
          DeviceSimulator.init.current_temperature ∧
        (pong_dispatch cmdFoo dr0 DeviceSimulator.init).1.current_rpm =
          DeviceSimulator.init.current_rpm) ∧
    (cmdFoo.type = some "Temperature Reading" →
        device_state.rgb = device_state.rgb ∧
        device_state.rpm = device_state.rpm ∧
        (pong_dispatch cmdFoo dr0 DeviceSimulator.init).1.current_rgb =
          DeviceSimulator.init.current_rgb ∧
        (pong_dispatch cmdFoo dr0 DeviceSimulator.init).1.current_rpm =
          DeviceSimulator.init.current_rpm) ∧
    (cmdFoo.type = some "Weight Data" →
        device_state.rgb = device_state.rgb ∧
        device_state.temperature = device_state.temperature ∧
        (pong_dispatch cmdFoo dr0 DeviceSimulator.init).1.current_rgb =
          DeviceSimulator.init.current_rgb ∧
        (pong_dispatch cmdFoo dr0 DeviceSimulator.init).1.current_temperature =
          DeviceSimulator.init.current_temperature) ∧
    (cmdFoo.type ≠ some "RGB Command" →
      cmdFoo.type ≠ some "Temperature Reading" →
      cmdFoo.type ≠ some "Weight Data" →
        device_state = device_state ∧
        (pong_dispatch cmdFoo dr0 DeviceSimulator.init).1 =
          DeviceSimulator.init) :=
  C7_handler_frame cmdFoo dr0 0 device_state DeviceSimulator.init
    device_state respFooEx (respTopic (some "s1")) rfl

/-- Decidable check that an optional value is an int within [lo, hi]. -/
def intInRange (v : Option Value) (lo hi : Int) : Bool :=
  match v with
  | some (.vInt n) => decide (lo ≤ n) && decide (n ≤ hi)
  | _ => false

/-- The spec's declared DeviceState field ranges as a decidable check:
each rgb component an int in [0, 255] and rpm an int in [0, 5000]. -/
def RangeOKb (st : DeviceState) : Bool :=
  intInRange (mget st.rgb "r") 0 255 && intInRange (mget st.rgb "g") 0 255 &&
    intInRange (mget st.rgb "b") 0 255 && intInRange (some st.rpm) 0 5000

/-- Check that `int(x)` succeeds with a result within [lo, hi]. -/
def pyIntInRange (v : Value) (lo hi : Int) : Bool :=
  match pyInt v with
  | some n => decide (lo ≤ n) && decide (n ≤ hi)
  | none => false

theorem band_true_split {a b : Bool} (h : (a && b) = true) :
    a = true ∧ b = true := by
  constructor <;> simp_all

theorem pyIntInRange_spec {v : Value} {lo hi : Int}
    (h : pyIntInRange v lo hi = true) :
    ∃ n, pyInt v = some n ∧ lo ≤ n ∧ n ≤ hi := by
  unfold pyIntInRange at h
  rcases hv : pyInt v with _ | n
  · rw [hv] at h
    cases h
  · rw [hv] at h
    simp at h
    exact ⟨n, rfl, h⟩

/-- A command is range-respecting when the values it writes into the
device state stay within the spec's declared ranges: for RGB Command its
rgb entries convert to ints in [0, 255]; for Weight Data its set_rpm,
when present, is an int in [0, 5000]. -/
def cmdInRangeb (c : Command) : Bool :=
  (if c.type = some "RGB Command" then
     pyIntInRange ((mget c.data "r").getD (.vInt 0)) 0 255 &&
       pyIntInRange ((mget c.data "g").getD (.vInt 0)) 0 255 &&
       pyIntInRange ((mget c.data "b").getD (.vInt 0)) 0 255
   else true) &&
  (if c.type = some "Weight Data" then
     match mget c.data "set_rpm" with
     | none => true
     | some (.vInt n) => decide (0 ≤ n) && decide (n ≤ 5000)
     | some _ => false
   else true)

/-- C6 counterexample: the claimed field-range invariant is false on the
code. The handlers perform no clamping, so the reachable state after the
single RGB command with r = 300 has an rgb component outside [0, 255],
while the initial state was in range. -/
theorem C6_counterexample_rgb_300 :
    runDS [(cmdRGB 300 0 0, dr0, 0)] device_state =
      some { rgb := rgbMap 300 0 0, temperature := 25, rpm := .vInt 0 } ∧
    RangeOKb { rgb := rgbMap 300 0 0, temperature := 25, rpm := .vInt 0 } =
      false ∧
    RangeOKb device_state = true :=
  ⟨rfl, rfl, rfl⟩

/-- C6 amended: every device state reached from an in-range state by
range-respecting commands satisfies the declared field ranges; the
handlers themselves never clamp, so the restriction to range-respecting
commands is necessary (see the counterexample). -/
theorem C6_amended_range_invariant (steps : List (Command × Draws × ℚ)) :
    ∀ st : DeviceState, RangeOKb st = true →
    (∀ s ∈ steps, cmdInRangeb s.1 = true) →
    (runDS steps st).elim False (fun st' => RangeOKb st' = true) := by
  induction steps with
  | nil =>
    intro st hst h
    simpa [runDS] using hst
  | cons s rest ih =>
    intro st hst h
    obtain ⟨c, dr, now⟩ := s
    have hc := h _ (List.mem_cons_self _ _)
    have hrest := fun s hs => h s (List.mem_cons_of_mem _ hs)
    have hstrpm : intInRange (some st.rpm) 0 5000 = true :=
      (band_true_split hst).2
    have hstrgb : (intInRange (mget st.rgb "r") 0 255 &&
        intInRange (mget st.rgb "g") 0 255 &&
        intInRange (mget st.rgb "b") 0 255) = true :=
      (band_true_split hst).1
    have hstR := (band_true_split (band_true_split hstrgb).1).1
    have hstG := (band_true_split (band_true_split hstrgb).1).2
    have hstB := (band_true_split hstrgb).2
    by_cases h1 : c.type = some "RGB Command"
    · have hcrgb : (pyIntInRange ((mget c.data "r").getD (.vInt 0)) 0 255 &&
          pyIntInRange ((mget c.data "g").getD (.vInt 0)) 0 255 &&
          pyIntInRange ((mget c.data "b").getD (.vInt 0)) 0 255) = true := by
        have h' := hc
        unfold cmdInRangeb at h'
        rw [if_pos h1] at h'
        exact (band_true_split h').1
      have hcr := (band_true_split (band_true_split hcrgb).1).1
      have hcg := (band_true_split (band_true_split hcrgb).1).2
      have hcb := (band_true_split hcrgb).2
      obtain ⟨rv, hrr, hr0, hr255⟩ := pyIntInRange_spec hcr
      obtain ⟨gv, hgg, hg0, hg255⟩ := pyIntInRange_spec hcg
      obtain ⟨bv, hbb, hb0, hb255⟩ := pyIntInRange_spec hcb
      have hpc : process_command c dr now st =
          some ({ st with rgb := rgbMap rv gv bv },
            { type := c.type,
              data := [("current_state", .vStr "applied"),
                       ("power_consumption", .vNum dr.d1),
                       ("applied_values", .vMap (rgbMap rv gv bv))],
              timestamp := now, session_id := c.session_id },
            respTopic c.session_id) := by
        simp [process_command, process_dispatch, h1, hrr, hgg, hbb]
      simp only [runDS, hpc]
      apply ih
      · simp only [RangeOKb, Bool.and_eq_true]
        refine ⟨⟨⟨?_, ?_⟩, ?_⟩, hstrpm⟩
        · simp [rgbMap, mget, intInRange, hr0, hr255]
        · simp [rgbMap, mget, intInRange, hg0, hg255]
        · simp [rgbMap, mget, intInRange, hb0, hb255]
      · exact hrest
    · by_cases h2 : c.type = some "Temperature Reading"
      · have hpc : process_command c dr now st =
            some ({ st with temperature := st.temperature + dr.d1 },
              { type := c.type,
                data := [("current_temperature", .vNum (st.temperature + dr.d1)),
                         ("humidity", .vNum dr.d2),
                         ("pressure", .vNum dr.d3)],
                timestamp := now, session_id := c.session_id },
              respTopic c.session_id) := by
          simp [process_command, process_dispatch_temp dr st h2]
        simp only [runDS, hpc]
        exact ih _ hst hrest
      · by_cases h3 : c.type = some "Weight Data"
        · have hcw : (match mget c.data "set_rpm" with
              | none => true
              | some (.vInt n) => decide (0 ≤ n) && decide (n ≤ 5000)
              | some _ => false) = true := by
            have h' := hc
            unfold cmdInRangeb at h'
            rw [if_neg h1, if_pos h3] at h'
            simpa using h'
          rcases Option.eq_none_or_eq_some (mget c.data "set_rpm") with
            hrpm | ⟨v, hrpm⟩
          · have hpc : process_command c dr now st =
                some (st,
                  { type := c.type,
                    data := [("calibrated_weight", .vNum dr.d1),
                             ("current_rpm", st.rpm),
                             ("stability", .vNum dr.d2)],
                    timestamp := now, session_id := c.session_id },
                  respTopic c.session_id) := by
              simp [process_command, process_dispatch_weight_norpm dr st h3 hrpm]
            simp only [runDS, hpc]
            exact ih _ hst hrest
          · rw [hrpm] at hcw
            have hpc : process_command c dr now st =
                some ({ st with rpm := v },
                  { type := c.type,
                    data := [("calibrated_weight", .vNum dr.d1),
                             ("current_rpm", v),
                             ("stability", .vNum dr.d2)],
                    timestamp := now, session_id := c.session_id },
                  respTopic c.session_id) := by
              simp [process_command, process_dispatch_weight_set dr st h3 hrpm]
            rcases v with n | q | sv | bv' | mv | _
            · have hn : 0 ≤ n ∧ n ≤ 5000 := by simpa using hcw
              simp only [runDS, hpc]
              apply ih
              · simp only [RangeOKb, Bool.and_eq_true]
                refine ⟨⟨⟨hstR, hstG⟩, hstB⟩, ?_⟩
                simp [intInRange, hn.1, hn.2]
              · exact hrest
            all_goals simp at hcw
        · have hpc : process_command c dr now st =
              some (st,
                { type := c.type,
                  data := [("error", .vStr "Unknown command type")],
                  timestamp := now, session_id := c.session_id },
                respTopic c.session_id) := by
            simp [process_command, process_dispatch_unknown dr st h1 h2 h3]
          simp only [runDS, hpc]
          exact ih _ hst hrest

/-- Witness for the amended C6: one in-range RGB command from the initial
state keeps the state in range. -/
theorem C6_amended_range_invariant_witness :
    (runDS [(cmdRGB 10 20 30, dr0, 0)] device_state).elim False
      (fun st' => RangeOKb st' = true) := by
  apply C6_amended_range_invariant [(cmdRGB 10 20 30, dr0, 0)] device_state rfl
  intro s hs
  rw [List.mem_singleton] at hs
  subst hs
  rfl

/-! ### Streaming-loop lemmas -/

/-- An exited streaming thread stays exited under every event. -/
theorem sstep_exited {s s' : StreamState} {e : SEv}
    (hs : sstep s e = some s') (he : s.pc = .exited) : s'.pc = .exited := by
  cases e <;> simp [sstep, he] at hs <;> subst hs <;> first | rfl | exact he

/-- No publish event can occur once the streaming thread has exited. -/
theorem runS_exited_no_publish {evs : List SEv} {s s' : StreamState}
    (he : s.pc = .exited) (hr : runS s evs = some s') :
    SEv.publishCmd ∉ evs := by
  induction evs generalizing s with
  | nil => simp
  | cons e es ih =>
    simp only [runS] at hr
    rcases hstep : sstep s e with _ | s₁
    · rw [hstep] at hr
      cases hr
    · rw [hstep] at hr
      intro hmem
      rcases List.mem_cons.mp hmem with rfl | hmem'
      · simp [sstep, he] at hstep
      · exact ih (sstep_exited hstep he) hr hmem'

/-- Splitting a run of the streaming machinery at a list append. -/
theorem runS_append {l1 l2 : List SEv} {s s' : StreamState}
    (h : runS s (l1 ++ l2) = some s') :
    ∃ sm, runS s l1 = some sm ∧ runS sm l2 = some s' := by
  induction l1 generalizing s with
  | nil => exact ⟨s, rfl, h⟩
  | cons e es ih =>
    simp only [List.cons_append, runS] at h ⊢
    rcases hstep : sstep s e with _ | s₁
    · rw [hstep] at h
      cases h
    · rw [hstep] at h
      exact ih h

/-- C8: for the streaming controller started once (flag set, thread
spawned at the loop check), in every interleaved execution in which the
join of `stop_temperature_streaming` returns — which requires the thread
to have exited — no Temperature Reading command is published afterwards:
`stop()` blocks until the loop has exited and no publish follows. -/
theorem C8_stop_halts_streaming_publishes
    (l1 l2 : List SEv) (s' : StreamState)
    (h : runS streamStart (l1 ++ SEv.joinRet :: l2) = some s') :
    SEv.publishCmd ∉ l2 := by
  obtain ⟨sm, -, h2⟩ := runS_append h
  simp only [runS] at h2
  rcases hstep : sstep sm .joinRet with _ | sj
  · rw [hstep] at h2
    cases h2
  · rw [hstep] at h2
    have hex : sm.pc = .exited := by
      by_contra hne
      simp [sstep, hne] at hstep
    exact runS_exited_no_publish (sstep_exited hstep hex) h2

/-- Witness for C8: stop signal, loop check observing the cleared flag,
join returning, then a disconnect — no publish after the join. -/
theorem C8_stop_halts_streaming_publishes_witness :
    runS streamStart
        ([SEv.stopSignal, SEv.checkLoop] ++ SEv.joinRet :: [SEv.dropConn]) =
      some { streaming := false, connected := false, pc := .exited } ∧
    SEv.publishCmd ∉ [SEv.dropConn] :=
  ⟨rfl, C8_stop_halts_streaming_publishes [SEv.stopSignal, SEv.checkLoop]
    [SEv.dropConn] { streaming := false, connected := false, pc := .exited } rfl⟩

/-- C10 counterexample: from corresponding initial states, with identical
draws and wall-clock time, the same RGB command with an empty data mapping
makes the two responders produce different Response.data (and different
resulting rgb state): app-pong.py echoes the raw empty mapping while
app-pingpong.py substitutes the default 0 components. -/
theorem C10_counterexample_empty_rgb :
    DeviceSimulator.init.toDevice = device_state ∧
    (pong_main_step cmdRGBempty dr0 0 DeviceSimulator.init).1.current_rgb = [] ∧
    (process_command cmdRGBempty dr0 0 device_state).map (fun p => p.1.rgb) =
      some (rgbMap 0 0 0) ∧
    mget (pong_main_step cmdRGBempty dr0 0 DeviceSimulator.init).2.1.data
        "applied_values" = some (.vMap []) ∧
    (process_command cmdRGBempty dr0 0 device_state).map
        (fun p => mget p.2.1.data "applied_values") =
      some (some (.vMap (rgbMap 0 0 0))) ∧
    Value.vMap [] ≠ Value.vMap (rgbMap 0 0 0) := by
  refine ⟨rfl, rfl, rfl, rfl, rfl, ?_⟩
  simp [rgbMap]

/-- C10 amended: given the same prior device state and identical draws,
the two responders produce equal responses (data, topic and all) and
corresponding resulting device states for every command, except RGB
commands whose data is not exactly a three-entry integer {r, g, b}
mapping — for those the responders genuinely differ (see the
counterexample). -/
theorem C10_amended_responder_equivalence
    (cmd : Command) (dr : Draws) (now : ℚ) (sim : DeviceSimulator)
    (h : cmd.type = some "RGB Command" →
      ∃ r g b : Int, cmd.data = rgbMap r g b) :
    process_command cmd dr now sim.toDevice =
      some ((pong_main_step cmd dr now sim).1.toDevice,
            (pong_main_step cmd dr now sim).2.1,
            (pong_main_step cmd dr now sim).2.2) := by
  by_cases h1 : cmd.type = some "RGB Command"
  · obtain ⟨r, g, b, hdata⟩ := h h1
    simp only [process_command, pong_main_step,
      process_dispatch_rgb_ints dr sim.toDevice r g b h1 hdata,
      pong_dispatch_rgb dr sim h1, hdata, Option.map_some']
    rfl
  · by_cases h2 : cmd.type = some "Temperature Reading"
    · simp only [process_command, pong_main_step,
        process_dispatch_temp dr sim.toDevice h2,
        pong_dispatch_temp dr sim h2, Option.map_some']
      rfl
    · by_cases h3 : cmd.type = some "Weight Data"
      · rcases Option.eq_none_or_eq_some (mget cmd.data "set_rpm") with
          hrpm | ⟨v, hrpm⟩
        · simp only [process_command, pong_main_step,
            process_dispatch_weight_norpm dr sim.toDevice h3 hrpm,
            pong_dispatch_weight_norpm dr sim h3 hrpm, Option.map_some']
          try rfl
        · simp only [process_command, pong_main_step,
            process_dispatch_weight_set dr sim.toDevice h3 hrpm,
            pong_dispatch_weight_set dr sim h3 hrpm, Option.map_some']
          try rfl
      · simp only [process_command, pong_main_step,
          process_dispatch_unknown dr sim.toDevice h1 h2 h3,
          pong_dispatch_unknown dr sim h1 h2 h3, Option.map_some']
        try rfl

/-- Witness for the amended C10 at a concrete unknown-type command. -/
theorem C10_amended_responder_equivalence_witness :
    process_command cmdFoo dr0 0 DeviceSimulator.init.toDevice =
      some ((pong_main_step cmdFoo dr0 0 DeviceSimulator.init).1.toDevice,
            (pong_main_step cmdFoo dr0 0 DeviceSimulator.init).2.1,
            (pong_main_step cmdFoo dr0 0 DeviceSimulator.init).2.2) :=
  C10_amended_responder_equivalence cmdFoo dr0 0 DeviceSimulator.init
    (fun hx => absurd hx (by decide))

